import Mathlib

/-!
# SLA compliance monitoring — verification of the downtime evaluator and job orchestration

Shallow embedding of `src/main.py` (and, where a claim refers to it, of the
backup variant `src/main_bk.py`) of the `sla-compliance-monitoring` repository.

Modelling conventions:
* Unix timestamps are `ℤ` (Python `int`), metric counter values are `ℚ`
  (Python `float`/`int`; all arithmetic performed by the code is exact on the
  rationals).
* An aligned time series (the `data_points` dict built by
  `fetch_aligned_series`) is a finite association list `List (ℤ × ℚ)`;
  `seriesGet` models Python's `dict.get(t, 0)`.
* `get_sla_metrics` is embedded with the two fetched series passed in as
  arguments (the network fetch of lines 148/154/157 is abstracted as input
  data, which is exactly what the spec's claims quantify over).  The
  unguarded `ZeroDivisionError` that Python raises when
  `end_time == start_time` (so that `total_mins == 0`) is modelled as `none`.
-/

/-- `dict.get(t, 0)` on an association-list model of a Python dict
(keys are unique in a dict, so first-match lookup is faithful). -/
def seriesGet (s : List (ℤ × ℚ)) (t : ℤ) : ℚ :=
  match s with
  | [] => 0
  | p :: rest => if p.1 = t then p.2 else seriesGet rest t

/-- Python `range(a, b, 60)`: the list `a, a+60, …` of all values `< b`.
Its length is `⌈(b-a)/60⌉` when `b > a` and `0` otherwise. -/
def pyRange60 (a b : ℤ) : List ℤ :=
  (List.range (((b - a).toNat + 59) / 60)).map (fun (i : ℕ) => a + 60 * (i : ℤ))

/-- Line 163 of `src/main.py`:
`errors = (total - suc_data.get(t, 0)) if is_bq else err_data.get(t, 0)`. -/
def pyErrors (service_type : String) (tot suc err : List (ℤ × ℚ)) (t : ℤ) : ℚ :=
  if service_type = "bigquery_project" then seriesGet tot t - seriesGet suc t
  else seriesGet err t

/-- The per-bucket downtime decision of lines 161-164 of `src/main.py`, as a
Boolean: skip when `total < 1`, otherwise flag iff `errors / total >= 1.0`. -/
def bucketIsDowntime (service_type : String) (tot suc err : List (ℤ × ℚ)) (t : ℤ) : Bool :=
  if seriesGet tot t < 1 then false
  else 1 ≤ pyErrors service_type tot suc err t / seriesGet tot t

/-- Lines 159-164 of `src/main.py`: the `downtime_minutes` accumulation loop
`for t in range(int(start_time), int(end_time), 60)`. -/
def downtime_count (service_type : String) (tot suc err : List (ℤ × ℚ))
    (start_time end_time : ℤ) : ℕ :=
  (pyRange60 start_time end_time).foldl
    (fun acc t =>
      let total := seriesGet tot t
      if total < 1 then acc
      else
        let errors := pyErrors service_type tot suc err t
        if 1 ≤ errors / total then acc + 1 else acc)
    0

/-- Round-half-to-even on `ℚ`, the tie-breaking rule of Python's `round`. -/
def roundHalfEven (q : ℚ) : ℤ :=
  let fl := ⌊q⌋
  let frac := q - fl
  if frac < 1/2 then fl
  else if 1/2 < frac then fl + 1
  else if fl % 2 = 0 then fl else fl + 1

/-- Python `round(x, 4)` modelled exactly on the rationals. -/
def pyRound4 (q : ℚ) : ℚ := (roundHalfEven (q * 10000) : ℚ) / 10000

/-- Lines 146-168 of `src/main.py` (`get_sla_metrics`), with the fetched
series abstracted as inputs.  Returns `(round(uptime_pct, 4), downtime_minutes)`;
`none` models the unguarded `ZeroDivisionError` raised when
`end_time == start_time` makes `total_mins` zero at line 167. -/
def get_sla_metrics (service_type : String) (tot suc err : List (ℤ × ℚ))
    (start_time end_time : ℤ) : Option (ℚ × ℕ) :=
  if end_time = start_time then none
  else
    let downtime_minutes := downtime_count service_type tot suc err start_time end_time
    let total_mins : ℚ := ((end_time - start_time : ℤ) : ℚ) / 60
    some (pyRound4 (((total_mins - (downtime_minutes : ℚ)) / total_mins) * 100),
          downtime_minutes)

/-- Lines 96-98 of `src/main_bk.py`: the backup variant floors both loop
bounds to the minute (`loop_start = int(start_time) - (int(start_time) % 60)`,
likewise `loop_end`) before stepping by 60. -/
def bk_loop_range (start_time end_time : ℤ) : List ℤ :=
  pyRange60 (start_time - start_time % 60) (end_time - end_time % 60)

/-! ## Orchestration layer: `run_sla_task` and the job lifecycle

`run_sla_task` (lines 173-199 of `src/main.py`) submits one future per
`(project, service)` target and then runs
`results = [f.result() for f in concurrent.futures.as_completed(futures)]`.
We embed the part after the futures resolve: the input is the list of
per-future outcomes *in completion order* (an `Except`: `ok` carries the
tuple `(pid, name, (uptime, mins), threshold)` built by the lambda of line
182, `error` carries the exception's string).  `f.result()` re-raises the
future's exception, aborting the comprehension, so the whole `try` body is
abandoned at the first errored future in completion order and the `except`
branch writes `{"status": "failed", "error": str(e)}`. -/

/-- One resolved future of line 182-184: `(pid, service_name, (uptime_pct,
downtime_minutes), threshold)` on success, the raised exception's message on
failure. -/
abbrev FutureResult := Except String (String × String × (ℚ × ℕ) × ℚ)

/-- One entry of the per-project `metrics` list built at lines 190-191. -/
structure ServiceEntry where
  service : String
  uptime_pct : ℚ
  downtime_minutes : ℕ
  compliant : Bool
  deriving DecidableEq, Repr

/-- Line 191: `{"service": name, "uptime_pct": uptime, "downtime_minutes":
mins, "compliant": uptime >= thresh}` from the result tuple. -/
def entryOfResult (r : String × String × (ℚ × ℕ) × ℚ) : ServiceEntry :=
  ⟨r.2.1, r.2.2.1.1, r.2.2.1.2, decide (r.2.2.2 ≤ r.2.2.1.1)⟩

/-- Line 185: `[f.result() for f in as_completed(futures)]`.  The list
comprehension evaluates `f.result()` left to right in completion order; the
first errored future re-raises, aborting the comprehension. -/
def collectResults : List FutureResult → Except String (List (String × String × (ℚ × ℕ) × ℚ))
  | [] => Except.ok []
  | Except.error e :: _ => Except.error e
  | Except.ok r :: rest =>
    match collectResults rest with
    | Except.error e => Except.error e
    | Except.ok l => Except.ok (r :: l)

/-- Lines 189-191 on a Python dict: `formatted[pid].append(entry)`, creating
the key at the end of the (insertion-ordered) dict when absent. -/
def dictAppend (m : List (String × List ServiceEntry)) (pid : String) (e : ServiceEntry) :
    List (String × List ServiceEntry) :=
  match m with
  | [] => [(pid, [e])]
  | (k, v) :: rest => if k = pid then (k, v ++ [e]) :: rest else (k, v) :: dictAppend rest pid e

/-- Lines 187-191: build `formatted` by iterating the completion-ordered
results and appending each entry under its project id. -/
def formatGroups (results : List (String × String × (ℚ × ℕ) × ℚ)) :
    List (String × List ServiceEntry) :=
  results.foldl (fun m r => dictAppend m r.1 (entryOfResult r)) []

/-- Lookup of a project's entry list in the grouped structure (`[]` when the
project id is absent). -/
def groupLookup (m : List (String × List ServiceEntry)) (pid : String) : List ServiceEntry :=
  match m with
  | [] => []
  | (k, v) :: rest => if k = pid then v else groupLookup rest pid

/-- The terminal Firestore update performed by `run_sla_task`: line 193-197
on success (`status`, `finished_at`, `data`), line 199 on failure (`status`,
`error` — note: no `finished_at`). -/
structure TerminalUpdate where
  status : String
  finished_at_set : Bool
  data : Option (List (String × List ServiceEntry))
  error : Option String
  deriving DecidableEq, Repr

/-- Lines 175-199 of `src/main.py` after the futures resolve: collect the
results (re-raising the first error in completion order) and perform the one
terminal update. -/
def run_sla_task (futureResults : List FutureResult) : TerminalUpdate :=
  match collectResults futureResults with
  | Except.ok results => ⟨"completed", true, some (formatGroups results), none⟩
  | Except.error e => ⟨"failed", false, none, some e⟩

/-- A write against the job's Firestore document. -/
inductive StoreOp where
  | setDoc : String → StoreOp
  | updateDoc : TerminalUpdate → StoreOp
  | deleteDoc : StoreOp
  deriving DecidableEq

/-- Lines 204-211 (`create_report`) followed by the background task: the
document is first `set` with `status="processing"` (lines 207-209), and the
background `run_sla_task` then performs exactly one `update` (lines 193-199).
The subsystem issues no other write and no delete. -/
def create_report_and_run (futureResults : List FutureResult) : List StoreOp :=
  [StoreOp.setDoc "processing", StoreOp.updateDoc (run_sla_task futureResults)]

/-- Fixture: a future that resolved successfully for project `p1`. -/
def okTarget : FutureResult := Except.ok ("p1", "svc-a", ((100 : ℚ), (0 : ℕ)), (999/10 : ℚ))

/-- Fixture: a future whose metric fetch raised `MetricQueryError`. -/
def errTarget : FutureResult := Except.error "MetricQueryError: quota exceeded"

/-- Fixture: a resolved result tuple for project `p1`. -/
def resP1 : String × String × (ℚ × ℕ) × ℚ := ("p1", "svc-a", ((100 : ℚ), (0 : ℕ)), (99 : ℚ))

/-- Fixture: a resolved result tuple for project `p2`. -/
def resP2 : String × String × (ℚ × ℕ) × ℚ := ("p2", "svc-b", ((100 : ℚ), (0 : ℕ)), (99 : ℚ))

/-- First-occurrence key insertion: how a Python dict's key order evolves
when a (possibly present) key is written. -/
def keyInsert (ks : List String) (p : String) : List String :=
  if p ∈ ks then ks else ks ++ [p]

/-- The keys of a Python dict populated by successive writes: order of first
occurrence. -/
def firstOccurList (ps : List String) : List String := ps.foldl keyInsert []

/-! ## Helper lemmas -/

lemma foldl_ite_count (p : ℤ → Bool) (l : List ℤ) (n : ℕ) :
    l.foldl (fun acc t => if p t then acc + 1 else acc) n = n + l.countP p := by
  induction l generalizing n with
  | nil => simp
  | cons a l ih =>
    by_cases h : p a
    · simp [h, List.countP_cons, ih]
      omega
    · simp [h, List.countP_cons, ih]

lemma downtime_count_eq_countP (service_type : String) (tot suc err : List (ℤ × ℚ))
    (a b : ℤ) :
    downtime_count service_type tot suc err a b =
      (pyRange60 a b).countP (bucketIsDowntime service_type tot suc err) := by
  have hbody : (fun (acc : ℕ) (t : ℤ) =>
      let total := seriesGet tot t
      if total < 1 then acc
      else
        let errors := pyErrors service_type tot suc err t
        if 1 ≤ errors / total then acc + 1 else acc) =
      (fun acc t => if bucketIsDowntime service_type tot suc err t then acc + 1 else acc) := by
    funext acc t
    by_cases h1 : seriesGet tot t < 1
    · simp [bucketIsDowntime, h1]
    · by_cases h2 : 1 ≤ pyErrors service_type tot suc err t / seriesGet tot t
      · simp [bucketIsDowntime, h1, h2]
      · simp [bucketIsDowntime, h1, h2]
  rw [downtime_count, hbody, foldl_ite_count, Nat.zero_add]

lemma countP_congr_mem (l : List ℤ) (p q : ℤ → Bool) (h : ∀ t ∈ l, p t = q t) :
    l.countP p = l.countP q := by
  induction l with
  | nil => rfl
  | cons a l ih =>
    simp only [List.countP_cons, h a (List.mem_cons_self a l)]
    rw [ih fun t ht => h t (List.mem_cons_of_mem a ht)]

lemma pyRange60_length (a b : ℤ) :
    (pyRange60 a b).length = ((b - a).toNat + 59) / 60 := by
  rw [pyRange60, List.length_map, List.length_range]

lemma mem_pyRange60 (a b t : ℤ) (h : t ∈ pyRange60 a b) : ∃ k : ℕ, t = a + 60 * k := by
  rw [pyRange60] at h
  obtain ⟨k, _, hk⟩ := List.mem_map.mp h
  exact ⟨k, hk.symm⟩

lemma seriesGet_eq_zero_of_keys_dvd (s : List (ℤ × ℚ)) (t : ℤ)
    (hk : ∀ p ∈ s, (60 : ℤ) ∣ p.1) (ht : ¬ (60 : ℤ) ∣ t) : seriesGet s t = 0 := by
  induction s with
  | nil => rfl
  | cons p rest ih =>
    have hp : (60 : ℤ) ∣ p.1 := hk p (List.mem_cons_self p rest)
    have hne : p.1 ≠ t := by rintro rfl; exact ht hp
    simp only [seriesGet, if_neg hne]
    exact ih fun q hq => hk q (List.mem_cons_of_mem p hq)

lemma collectResults_error (rs : List FutureResult)
    (h : ∃ e, Except.error e ∈ rs) : ∃ msg, collectResults rs = Except.error msg := by
  induction rs with
  | nil => simp at h
  | cons r rest ih =>
    obtain ⟨e, he⟩ := h
    cases r with
    | error msg => exact ⟨msg, rfl⟩
    | ok v =>
      have hmem : Except.error e ∈ rest := by
        rcases List.mem_cons.mp he with h1 | h1
        · exact absurd h1 (by simp)
        · exact h1
      obtain ⟨msg, hmsg⟩ := ih ⟨e, hmem⟩
      exact ⟨msg, by simp [collectResults, hmsg]⟩

lemma dictAppend_lookup (m : List (String × List ServiceEntry)) (p q : String)
    (e : ServiceEntry) :
    groupLookup (dictAppend m p e) q =
      if p = q then groupLookup m q ++ [e] else groupLookup m q := by
  induction m with
  | nil =>
    by_cases hpq : p = q <;> simp [dictAppend, groupLookup, hpq]
  | cons kv rest ih =>
    obtain ⟨k, v⟩ := kv
    by_cases hkp : k = p
    · subst hkp
      by_cases hkq : k = q
      · subst hkq
        simp [dictAppend, groupLookup]
      · simp [dictAppend, groupLookup, hkq]
    · by_cases hkq : k = q
      · subst hkq
        have hpq : p ≠ k := fun hh => hkp hh.symm
        simp [dictAppend, groupLookup, hkp, hpq, ih]
      · simp [dictAppend, groupLookup, hkp, hkq, ih]

lemma dictAppend_keys (m : List (String × List ServiceEntry)) (p : String) (e : ServiceEntry) :
    (dictAppend m p e).map Prod.fst = keyInsert (m.map Prod.fst) p := by
  induction m with
  | nil => simp [dictAppend, keyInsert]
  | cons kv rest ih =>
    obtain ⟨k, v⟩ := kv
    by_cases hkp : k = p
    · subst hkp
      simp [dictAppend, keyInsert]
    · have hne : p ≠ k := fun hh => hkp hh.symm
      by_cases hmem : p ∈ rest.map Prod.fst <;>
        simp [dictAppend, keyInsert, hkp, hne, hmem, ih]

lemma formatGroups_go_lookup (rs : List (String × String × (ℚ × ℕ) × ℚ))
    (m : List (String × List ServiceEntry)) (q : String) :
    groupLookup (rs.foldl (fun m r => dictAppend m r.1 (entryOfResult r)) m) q =
      groupLookup m q ++ (rs.filter (fun r => decide (r.1 = q))).map entryOfResult := by
  induction rs generalizing m with
  | nil => simp
  | cons r rest ih =>
    rw [List.foldl_cons, ih]
    by_cases hq : r.1 = q
    · simp [dictAppend_lookup, hq]
    · simp [dictAppend_lookup, hq]

lemma formatGroups_go_keys (rs : List (String × String × (ℚ × ℕ) × ℚ))
    (m : List (String × List ServiceEntry)) :
    (rs.foldl (fun m r => dictAppend m r.1 (entryOfResult r)) m).map Prod.fst =
      (rs.map Prod.fst).foldl keyInsert (m.map Prod.fst) := by
  induction rs generalizing m with
  | nil => simp
  | cons r rest ih =>
    rw [List.foldl_cons, ih, dictAppend_keys, List.map_cons, List.foldl_cons]

lemma pyRound4_hundred : pyRound4 100 = 100 := by
  norm_num [pyRound4, roundHalfEven]

lemma downtime_count_zero_of_skipped (service_type : String)
    (tot suc err : List (ℤ × ℚ)) (a b : ℤ)
    (h : ∀ t ∈ pyRange60 a b, seriesGet tot t < 1) :
    downtime_count service_type tot suc err a b = 0 := by
  rw [downtime_count_eq_countP, List.countP_eq_zero]
  intro t ht
  simp [bucketIsDowntime, h t ht]

lemma get_sla_metrics_no_downtime (service_type : String)
    (tot suc err : List (ℤ × ℚ)) (a b : ℤ) (hab : a ≠ b)
    (h : downtime_count service_type tot suc err a b = 0) :
    get_sla_metrics service_type tot suc err a b = some (100, 0) := by
  have hne : b ≠ a := fun hh => hab hh.symm
  have hm : ((b - a : ℤ) : ℚ) ≠ 0 := by
    simpa using sub_ne_zero.mpr (by exact_mod_cast hne)
  have hm60 : ((b - a : ℤ) : ℚ) / 60 ≠ 0 := by
    exact div_ne_zero hm (by norm_num)
  rw [get_sla_metrics, if_neg hne, h]
  have heq : (((b - a : ℤ) : ℚ) / 60 - ((0 : ℕ) : ℚ)) / (((b - a : ℤ) : ℚ) / 60) * 100 = 100 := by
    rw [Nat.cast_zero, sub_zero, div_self hm60, one_mul]
  show some (pyRound4 ((((b - a : ℤ) : ℚ) / 60 - ((0 : ℕ) : ℚ)) /
    (((b - a : ℤ) : ℚ) / 60) * 100), (0 : ℕ)) = some (100, 0)
  rw [heq, pyRound4_hundred]

/-! ## Claim C1 — downtime threshold -/

/-- C1 counterexample: with the per-service error-rate threshold 0.10 (the
spec's own end-to-end scenario), a bucket that passes the minimum-traffic
check and has error rate 20/150 > 0.10 is NOT counted as a downtime minute
by the code: the code's comparison is the hard-coded `errors / total >= 1.0`
of line 164, not `error_rate > config.error_rate_threshold`. -/
theorem downtime_threshold_cex :
    bucketIsDowntime "cloud_run_revision" [((0 : ℤ), (150 : ℚ))] [] [((0 : ℤ), (20 : ℚ))] 0
      = false ∧
    (1 : ℚ) ≤ seriesGet [((0 : ℤ), (150 : ℚ))] 0 ∧
    pyErrors "cloud_run_revision" [((0 : ℤ), (150 : ℚ))] [] [((0 : ℤ), (20 : ℚ))] 0 /
      seriesGet [((0 : ℤ), (150 : ℚ))] 0 > 1/10 := by
  have hsvc : ¬ ("cloud_run_revision" : String) = "bigquery_project" := by decide
  refine ⟨?_, by norm_num [seriesGet], by norm_num [seriesGet, pyErrors, hsvc]⟩
  norm_num [bucketIsDowntime, seriesGet, pyErrors, hsvc]

/-- C1 amended: a bucket in `[start, end)` stepping by 60 is counted as a
downtime minute iff its total is at least 1 AND its error count reaches its
total (error rate ≥ 100%) — the threshold is the hard-coded constant `1.0`
of line 164 of `src/main.py`, not a per-service configurable value. -/
theorem downtime_threshold_hardcoded (service_type : String) (tot suc err : List (ℤ × ℚ))
    (a b : ℤ) :
    downtime_count service_type tot suc err a b =
      (pyRange60 a b).countP
        (fun t => decide (1 ≤ seriesGet tot t ∧
          seriesGet tot t ≤ pyErrors service_type tot suc err t)) := by
  rw [downtime_count_eq_countP]
  apply countP_congr_mem
  intro t _
  by_cases h1 : seriesGet tot t < 1
  · have hn : ¬ (1 : ℚ) ≤ seriesGet tot t := not_le.mpr h1
    simp [bucketIsDowntime, h1, hn]
  · have h1' : (1 : ℚ) ≤ seriesGet tot t := not_lt.mp h1
    have hpos : (0 : ℚ) < seriesGet tot t := lt_of_lt_of_le zero_lt_one h1'
    simp only [bucketIsDowntime, if_neg h1]
    rw [decide_eq_decide]
    constructor
    · intro h2
      exact ⟨h1', (one_le_div hpos).mp h2⟩
    · intro h2
      exact (one_le_div hpos).mpr h2.2

/-! ## Claim C3 — minimum-traffic floor -/

/-- C3 counterexample: with the per-service `min_requests_per_minute = 100`
(the spec's own end-to-end scenario), a bucket with total 50 < 100 is NOT
skipped by the code: line 162 skips only when `total < 1`, and the bucket is
flagged as downtime. -/
theorem min_traffic_floor_cex :
    bucketIsDowntime "cloud_run_revision" [((60 : ℤ), (50 : ℚ))] [] [((60 : ℤ), (50 : ℚ))] 60
      = true ∧
    seriesGet [((60 : ℤ), (50 : ℚ))] 60 < 100 := by
  have hsvc : ¬ ("cloud_run_revision" : String) = "bigquery_project" := by decide
  constructor
  · norm_num [bucketIsDowntime, seriesGet, pyErrors, hsvc]
  · norm_num [seriesGet]

/-- C3 amended: the minimum-traffic floor is the hard-coded `total < 1` of
line 162: a bucket with total below 1 is never flagged as downtime, and a
skipped bucket still counts toward the denominator, which is always
`(end - start) / 60` irrespective of the series data. -/
theorem undersampled_bucket_skipped (service_type : String) (tot suc err : List (ℤ × ℚ))
    (a b t : ℤ) (h : seriesGet tot t < 1) (hab : a ≠ b) :
    bucketIsDowntime service_type tot suc err t = false ∧
    ∃ d : ℕ, get_sla_metrics service_type tot suc err a b =
      some (pyRound4 (((((b - a : ℤ) : ℚ) / 60) - (d : ℚ)) /
        (((b - a : ℤ) : ℚ) / 60) * 100), d) := by
  have hne : b ≠ a := fun hh => hab hh.symm
  refine ⟨by simp [bucketIsDowntime, h], downtime_count service_type tot suc err a b, ?_⟩
  rw [get_sla_metrics, if_neg hne]

/-- C3 witness: concrete instance of `undersampled_bucket_skipped` at a
bucket with total 1/2. -/
theorem undersampled_bucket_skipped_witness :
    bucketIsDowntime "gcs_bucket" [((0 : ℤ), (1/2 : ℚ))] [] [] 0 = false ∧
    ∃ d : ℕ, get_sla_metrics "gcs_bucket" [((0 : ℤ), (1/2 : ℚ))] [] [] 0 120 =
      some (pyRound4 (((((120 - 0 : ℤ) : ℚ) / 60) - (d : ℚ)) /
        (((120 - 0 : ℤ) : ℚ) / 60) * 100), d) :=
  undersampled_bucket_skipped "gcs_bucket" [((0 : ℤ), (1/2 : ℚ))] [] [] 0 120 0
    (by norm_num [seriesGet]) (by decide)

/-! ## Claim C4 — degenerate windows -/

/-- C4 counterexample: for the window `[0, 30)` the claimed
`evaluated_minutes = floor(30 / 60) = 0 ≤ 0` should fail with
`DegenerateWindowError`, but the code returns a normal result; and for the
window `[0, 0)` the code raises an unguarded `ZeroDivisionError` at line 167
(modelled as `none`), not an explicit error result. -/
theorem degenerate_window_cex :
    ((30 : ℤ) - 0) / 60 ≤ 0 ∧
    get_sla_metrics "cloud_run_revision" [] [] [] 0 30 = some (100, 0) ∧
    get_sla_metrics "cloud_run_revision" [] [] [] 0 0 = none := by
  refine ⟨by decide, ?_, by simp [get_sla_metrics]⟩
  apply get_sla_metrics_no_downtime _ _ _ _ _ _ (by decide)
  apply downtime_count_zero_of_skipped
  intro t _
  norm_num [seriesGet]

/-- C4 amended: `get_sla_metrics` has no degenerate-window guard: it crashes
with an unguarded `ZeroDivisionError` exactly when `end_time = start_time`
(the only case making `total_mins` zero at line 167), and returns a normal
result for every other window, including sub-minute ones whose floored
minute count is 0. -/
theorem degenerate_window_unguarded (service_type : String) (tot suc err : List (ℤ × ℚ))
    (a b : ℤ) :
    get_sla_metrics service_type tot suc err a a = none ∧
    (b ≠ a → (get_sla_metrics service_type tot suc err a b).isSome = true) := by
  constructor
  · simp [get_sla_metrics]
  · intro h
    rw [get_sla_metrics, if_neg h]
    rfl

/-- C4 witness: concrete instance of `degenerate_window_unguarded`. -/
theorem degenerate_window_unguarded_witness :
    get_sla_metrics "gcs_bucket" [] [] [] 0 0 = none ∧
    (get_sla_metrics "gcs_bucket" [] [] [] 0 60).isSome = true :=
  ⟨(degenerate_window_unguarded "gcs_bucket" [] [] [] 0 60).1,
   (degenerate_window_unguarded "gcs_bucket" [] [] [] 0 60).2 (by decide)⟩

/-! ## Claim C5 — SLAResult invariants -/

/-- C5 counterexample: for the window `[0, 90)` (not a multiple of 60) with
two fully-failing buckets at t=0 and t=60, the code returns
`downtime_minutes = 2` although `(end - start) / 60 = 3/2 < 2`: the invariant
`downtime_minutes ≤ evaluated_minutes` fails (and the resulting uptime is
negative). -/
theorem sla_invariants_cex :
    (get_sla_metrics "cloud_run_revision" [((0 : ℤ), (1 : ℚ)), ((60 : ℤ), (1 : ℚ))] []
       [((0 : ℤ), (1 : ℚ)), ((60 : ℤ), (1 : ℚ))] 0 90).map Prod.snd = some 2 ∧
    ¬ ((2 : ℚ) ≤ ((90 - 0 : ℤ) : ℚ) / 60) := by
  have hsvc : ¬ ("cloud_run_revision" : String) = "bigquery_project" := by decide
  constructor
  · have hd : downtime_count "cloud_run_revision" [((0 : ℤ), (1 : ℚ)), ((60 : ℤ), (1 : ℚ))] []
        [((0 : ℤ), (1 : ℚ)), ((60 : ℤ), (1 : ℚ))] 0 90 = 2 := by
      rw [downtime_count_eq_countP]
      have hr : pyRange60 0 90 = [0, 60] := by decide
      rw [hr]
      have h0 : bucketIsDowntime "cloud_run_revision" [((0 : ℤ), (1 : ℚ)), ((60 : ℤ), (1 : ℚ))]
          [] [((0 : ℤ), (1 : ℚ)), ((60 : ℤ), (1 : ℚ))] 0 = true := by
        norm_num [bucketIsDowntime, seriesGet, pyErrors, hsvc]
      have h60 : bucketIsDowntime "cloud_run_revision" [((0 : ℤ), (1 : ℚ)), ((60 : ℤ), (1 : ℚ))]
          [] [((0 : ℤ), (1 : ℚ)), ((60 : ℤ), (1 : ℚ))] 60 = true := by
        norm_num [bucketIsDowntime, seriesGet, pyErrors, hsvc]
      simp [List.countP_cons, h0, h60]
    rw [get_sla_metrics, if_neg (by decide : (90 : ℤ) ≠ 0), hd]
    rfl
  · norm_num

/-- C5 amended: restricted to windows whose length is a multiple of 60 (the
only windows the orchestrator builds), the invariants hold: the denominator
`total_mins` equals the integer `(end - start) / 60` exactly,
`0 ≤ downtime_minutes ≤ total_mins`, and the returned uptime is
`round((total_mins - downtime_minutes) / total_mins * 100, 4)`. -/
theorem sla_invariants_aligned_window (service_type : String) (tot suc err : List (ℤ × ℚ))
    (a b : ℤ) (hdvd : (60 : ℤ) ∣ (b - a)) (hab : a < b) :
    ∃ d : ℕ,
      get_sla_metrics service_type tot suc err a b =
        some (pyRound4 (((((b - a : ℤ) : ℚ) / 60) - (d : ℚ)) /
          (((b - a : ℤ) : ℚ) / 60) * 100), d) ∧
      (d : ℚ) ≤ ((b - a : ℤ) : ℚ) / 60 ∧
      ((b - a : ℤ) : ℚ) / 60 = (((b - a) / 60 : ℤ) : ℚ) := by
  obtain ⟨k, hk⟩ := hdvd
  have h0 : 0 < b - a := sub_pos.mpr hab
  have hk1 : 1 ≤ k := by omega
  have htk : (k.toNat : ℤ) = k := Int.toNat_of_nonneg (by omega)
  have hcast : ((k.toNat : ℕ) : ℚ) = (k : ℚ) := by exact_mod_cast htk
  have hkQ : ((b - a : ℤ) : ℚ) / 60 = ((k.toNat : ℕ) : ℚ) := by
    rw [hk, hcast]
    push_cast
    ring
  refine ⟨downtime_count service_type tot suc err a b, ?_, ?_, ?_⟩
  · rw [get_sla_metrics, if_neg hab.ne']
  · have hlen : (pyRange60 a b).length = k.toNat := by
      rw [pyRange60_length, hk]
      omega
    have hcount : downtime_count service_type tot suc err a b ≤ (pyRange60 a b).length := by
      rw [downtime_count_eq_countP]
      exact List.countP_le_length _
    rw [hlen] at hcount
    rw [hkQ]
    exact_mod_cast hcount
  · have hdiv : (b - a) / 60 = k := by
      rw [hk]
      exact Int.mul_ediv_cancel_left k (by norm_num)
    rw [hdiv, hkQ, hcast]

/-- C5 witness: concrete instance of `sla_invariants_aligned_window` on the
window `[0, 120)`. -/
theorem sla_invariants_aligned_window_witness :
    ∃ d : ℕ,
      get_sla_metrics "cloud_run_revision" [] [] [] 0 120 =
        some (pyRound4 (((((120 - 0 : ℤ) : ℚ) / 60) - (d : ℚ)) /
          (((120 - 0 : ℤ) : ℚ) / 60) * 100), d) ∧
      (d : ℚ) ≤ ((120 - 0 : ℤ) : ℚ) / 60 ∧
      ((120 - 0 : ℤ) : ℚ) / 60 = (((120 - 0) / 60 : ℤ) : ℚ) :=
  sla_invariants_aligned_window "cloud_run_revision" [] [] [] 0 120
    (by decide) (by decide)

/-! ## Claim C6 — derived bad count -/

/-- C6 counterexample: in `bigquery_project` mode with total 10 and success
15 at a bucket, the code's per-bucket bad count (line 163) is `-5`, not the
claimed clamp `max(0, total - success) = 0`. -/
theorem derived_clamp_cex :
    pyErrors "bigquery_project" [((0 : ℤ), (10 : ℚ))] [((0 : ℤ), (15 : ℚ))] [] 0 = -5 ∧
    max 0 (seriesGet [((0 : ℤ), (10 : ℚ))] 0 - seriesGet [((0 : ℤ), (15 : ℚ))] 0) = 0 := by
  constructor
  · norm_num [pyErrors, seriesGet]
  · norm_num [seriesGet]

/-- C6 amended: in `bigquery_project` mode the per-bucket bad count is the
unclamped `total_t - success_t`, which can be negative when the success
count exceeds the total; a negative bad count never flags the bucket as a
downtime minute (its error rate is below 1). -/
theorem derived_bad_count_unclamped (tot suc err : List (ℤ × ℚ)) (t : ℤ) :
    pyErrors "bigquery_project" tot suc err t = seriesGet tot t - seriesGet suc t ∧
    (pyErrors "bigquery_project" tot suc err t < 0 →
      bucketIsDowntime "bigquery_project" tot suc err t = false) := by
  constructor
  · simp [pyErrors]
  · intro hneg
    by_cases h1 : seriesGet tot t < 1
    · simp [bucketIsDowntime, h1]
    · have h1' : (1 : ℚ) ≤ seriesGet tot t := not_lt.mp h1
      have hpos : (0 : ℚ) < seriesGet tot t := lt_of_lt_of_le zero_lt_one h1'
      have hlt : pyErrors "bigquery_project" tot suc err t / seriesGet tot t < 1 :=
        lt_trans (div_neg_of_neg_of_pos hneg hpos) zero_lt_one
      simp [bucketIsDowntime, h1, not_le.mpr hlt]

/-- C6 witness: concrete instance of `derived_bad_count_unclamped` where the
success count 15 exceeds the total 10. -/
theorem derived_bad_count_unclamped_witness :
    pyErrors "bigquery_project" [((0 : ℤ), (10 : ℚ))] [((0 : ℤ), (15 : ℚ))] [] 0 =
      seriesGet [((0 : ℤ), (10 : ℚ))] 0 - seriesGet [((0 : ℤ), (15 : ℚ))] 0 ∧
    bucketIsDowntime "bigquery_project" [((0 : ℤ), (10 : ℚ))] [((0 : ℤ), (15 : ℚ))] [] 0 =
      false :=
  ⟨(derived_bad_count_unclamped [((0 : ℤ), (10 : ℚ))] [((0 : ℤ), (15 : ℚ))] [] 0).1,
   (derived_bad_count_unclamped [((0 : ℤ), (10 : ℚ))] [((0 : ℤ), (15 : ℚ))] [] 0).2
     (by norm_num [pyErrors, seriesGet])⟩

/-! ## Claim C2 — per-target error recovery -/

/-- C2 counterexample: with two targets of which exactly one raises
`MetricQueryError`, the job does NOT reach `completed` with one successful
entry and one error marker: `f.result()` at line 185 re-raises the error,
the whole `try` body is abandoned, and line 199 writes `status = "failed"`
with no result data. -/
theorem per_target_recovery_cex :
    (run_sla_task [okTarget, errTarget]).status = "failed" ∧
    (run_sla_task [okTarget, errTarget]).status ≠ "completed" ∧
    (run_sla_task [okTarget, errTarget]).data = none := by
  refine ⟨rfl, by decide, rfl⟩

/-- C2 amended: if any target's fetch raises (in whatever completion order
the futures resolve), the exception escapes the collection loop of line 185
and the job is written as terminal `failed` with no `data` and no
`finished_at`; no partial per-target results survive. -/
theorem any_error_fails_job (rs : List FutureResult) (h : ∃ e, Except.error e ∈ rs) :
    (run_sla_task rs).status = "failed" ∧
    (run_sla_task rs).finished_at_set = false ∧
    (run_sla_task rs).data = none ∧
    (run_sla_task rs).error ≠ none := by
  obtain ⟨msg, hmsg⟩ := collectResults_error rs h
  simp [run_sla_task, hmsg]

/-- C2 witness: concrete instance of `any_error_fails_job` with one failing
target. -/
theorem any_error_fails_job_witness :
    (run_sla_task [okTarget, errTarget]).finished_at_set = false ∧
    (run_sla_task [okTarget, errTarget]).error ≠ none :=
  ⟨(any_error_fails_job [okTarget, errTarget]
      ⟨"MetricQueryError: quota exceeded", by simp [errTarget]⟩).2.1,
   (any_error_fails_job [okTarget, errTarget]
      ⟨"MetricQueryError: quota exceeded", by simp [errTarget]⟩).2.2.2⟩

/-! ## Claim C7 — result ordering -/

/-- C7 counterexample: the same two targets grouped under two different
completion orders yield different outputs, so the output order is NOT
independent of task completion order: when the `p2` task completes first,
the project groups come out `["p2", "p1"]`, not the request order
`["p1", "p2"]`. -/
theorem grouping_order_cex :
    formatGroups [resP2, resP1] ≠ formatGroups [resP1, resP2] ∧
    (formatGroups [resP2, resP1]).map Prod.fst = ["p2", "p1"] := by
  constructor
  · simp [formatGroups, dictAppend, entryOfResult, resP1, resP2]
  · simp [formatGroups, dictAppend, entryOfResult, resP1, resP2]

/-- C7 amended: the grouping follows completion order, not request order:
each project's entry list is the completion-ordered sequence of that
project's results, and the project keys appear in order of first completion
(first occurrence in the completion-ordered result list). -/
theorem grouping_follows_completion_order
    (results : List (String × String × (ℚ × ℕ) × ℚ)) (pid : String) :
    groupLookup (formatGroups results) pid =
      (results.filter (fun r => decide (r.1 = pid))).map entryOfResult ∧
    (formatGroups results).map Prod.fst = firstOccurList (results.map Prod.fst) := by
  constructor
  · rw [formatGroups, formatGroups_go_lookup]
    simp [groupLookup]
  · rw [formatGroups, formatGroups_go_keys, firstOccurList]
    rfl

/-! ## Claim C8 — job lifecycle -/

/-- C8 counterexample: on the failed terminal transition (line 199) the
record is updated to `status = "failed"` WITHOUT setting `finished_at` — the
claim that `finished_at` is set on the terminal transition fails for the
`failed` branch. -/
theorem lifecycle_finished_at_cex :
    (run_sla_task [errTarget]).status = "failed" ∧
    (run_sla_task [errTarget]).finished_at_set = false := by
  exact ⟨rfl, rfl⟩

/-- C8 amended: the job document receives exactly two writes: a `set` with
status `processing` before any evaluation, then exactly one terminal
`update` to `completed` or `failed`; `finished_at` is set on that update iff
the terminal status is `completed` (the `failed` branch of line 199 omits
it); the subsystem never deletes the record. -/
theorem job_lifecycle_writes (rs : List FutureResult) :
    create_report_and_run rs =
      [StoreOp.setDoc "processing", StoreOp.updateDoc (run_sla_task rs)] ∧
    ((run_sla_task rs).status = "completed" ∨ (run_sla_task rs).status = "failed") ∧
    ((run_sla_task rs).finished_at_set = true ↔ (run_sla_task rs).status = "completed") ∧
    StoreOp.deleteDoc ∉ create_report_and_run rs := by
  refine ⟨rfl, ?_, ?_, ?_⟩
  · cases hc : collectResults rs <;> simp [run_sla_task, hc]
  · cases hc : collectResults rs <;> simp [run_sla_task, hc]
  · simp [create_report_and_run]

/-! ## Claim C9 — empty total series -/

/-- C9: if every bucket lookup in the total series returns 0 over the whole
window, every bucket is skipped by the `total < 1` check, no bucket is
flagged, and the result is `downtime_minutes = 0`, `uptime_pct = 100.0000`. -/
theorem empty_total_series_full_uptime (service_type : String) (tot suc err : List (ℤ × ℚ))
    (a b : ℤ) (hempty : ∀ t ∈ pyRange60 a b, seriesGet tot t = 0) (hab : a < b) :
    get_sla_metrics service_type tot suc err a b = some (100, 0) := by
  apply get_sla_metrics_no_downtime _ _ _ _ _ _ hab.ne
  apply downtime_count_zero_of_skipped
  intro t ht
  rw [hempty t ht]
  norm_num

/-- C9 witness: concrete instance of `empty_total_series_full_uptime` on the
window `[0, 120)` with an empty total series. -/
theorem empty_total_series_full_uptime_witness :
    (0 : ℤ) < 120 ∧
    get_sla_metrics "cloud_run_revision" [] [] [] 0 120 = some (100, 0) :=
  ⟨by decide,
   empty_total_series_full_uptime "cloud_run_revision" [] [] [] 0 120
     (fun t _ => rfl) (by decide)⟩

/-! ## Claim C10 — misaligned loop start -/

/-- C10: `get_sla_metrics` iterates buckets from the raw, unfloored
`start_time` while the fetched series (aligned by `fetch_aligned_series`,
whose interval is floored to the minute at lines 42-43) is keyed by
minute-aligned timestamps; so for any `start_time` with
`start_time % 60 ≠ 0` and any series whose keys are all multiples of 60,
every bucket lookup misses and the function returns
`downtime_minutes = 0`, `uptime_pct = 100.0`, regardless of the data.  The
backup variant `src/main_bk.py` instead floors the loop bounds, so all of
its buckets are minute-aligned. -/
theorem misaligned_start_misses_all_buckets (service_type : String)
    (tot suc err : List (ℤ × ℚ)) (a b : ℤ)
    (h0 : a % 60 ≠ 0) (hab : a < b)
    (htot : ∀ p ∈ tot, (60 : ℤ) ∣ p.1)
    (_hsuc : ∀ p ∈ suc, (60 : ℤ) ∣ p.1)
    (_herr : ∀ p ∈ err, (60 : ℤ) ∣ p.1) :
    get_sla_metrics service_type tot suc err a b = some (100, 0) ∧
    ∀ t ∈ bk_loop_range a b, (60 : ℤ) ∣ t := by
  constructor
  · apply get_sla_metrics_no_downtime _ _ _ _ _ _ hab.ne
    apply downtime_count_zero_of_skipped
    intro t ht
    obtain ⟨k, hkt⟩ := mem_pyRange60 a b t ht
    have hmod : t % 60 = a % 60 := by
      rw [hkt]
      exact Int.add_mul_emod_self_left a 60 (k : ℤ)
    have hndvd : ¬ (60 : ℤ) ∣ t := by
      rw [Int.dvd_iff_emod_eq_zero, hmod]
      exact h0
    rw [seriesGet_eq_zero_of_keys_dvd tot t htot hndvd]
    norm_num
  · intro t ht
    obtain ⟨k, hkt⟩ := mem_pyRange60 _ _ t ht
    rw [hkt]
    have hfl : a - a % 60 = 60 * (a / 60) := by
      have := Int.ediv_add_emod a 60
      omega
    rw [hfl]
    exact dvd_add (Dvd.intro _ rfl) (Dvd.intro _ rfl)

/-- C10 witness: concrete instance of `misaligned_start_misses_all_buckets`
with `start_time = 30`, minute-aligned data present at `t = 60`. -/
theorem misaligned_start_misses_all_buckets_witness :
    (30 : ℤ) % 60 ≠ 0 ∧
    get_sla_metrics "gcs_bucket" [((60 : ℤ), (5 : ℚ))] [] [((60 : ℤ), (7 : ℚ))] 30 150 =
      some (100, 0) :=
  ⟨by decide,
   (misaligned_start_misses_all_buckets "gcs_bucket" [((60 : ℤ), (5 : ℚ))] []
      [((60 : ℤ), (7 : ℚ))] 30 150 (by decide) (by decide)
      (by intro p hp; rw [List.mem_singleton] at hp; subst hp; exact dvd_refl 60)
      (by intro p hp; simp at hp)
      (by intro p hp; rw [List.mem_singleton] at hp; subst hp; exact dvd_refl 60)).1⟩
